import Mathlib

/-!
Verification of the nanotron optimizer-state checkpoint serialization engine.

This file gives a shallow embedding of the relevant parts of
`src/nanotron/serialize/optimizer.py` and
`src/nanotron/optim/inherit_from_other_optimizer.py`, and settles the frozen
claims C1..C10 against it.

Modelling conventions:
- tensors are opaque flat buffers, `Tensor := List Int` (the spec treats all
  numeric tensors as opaque N-dimensional arrays addressed by flat offsets);
- Python dicts become association lists in insertion order; `d[k]` is
  `alookup`, `d[k] = v` is `aset` (replace first occurrence or append);
- Python exceptions become explicit error values (`ZErr`);
- functions that mutate a state dict in place are modelled by explicit state
  passing: a step returns the new state, and the driver returns the state
  reached so far together with the error, mirroring the fact that a raised
  exception leaves earlier in-place mutations behind.

A few helpers live in repository modules that are not part of the provided
sources (`nanotron/optim/zero.py`, `nanotron/serialize/utils.py`); each such
definition carries a doc comment starting with `Modelled from the spec:`.
-/

/-- Association-list lookup, the model of Python `d.get(k)` / `d[k]` on a dict
whose items are kept in insertion order. -/
def alookup {α β : Type} [DecidableEq α] (l : List (α × β)) (k : α) : Option β :=
  (l.find? (fun kv => kv.1 == k)).map (fun kv => kv.2)

/-- Association-list assignment, the model of Python `d[k] = v`: replace the
first binding of `k`, or append a new binding at the end. -/
def aset {α β : Type} [DecidableEq α] : List (α × β) → α → β → List (α × β)
  | [], k, v => [(k, v)]
  | kv :: t, k, v => if kv.1 = k then (k, v) :: t else kv :: aset t k v

theorem alookup_nil {α β : Type} [DecidableEq α] (k : α) :
    alookup ([] : List (α × β)) k = none := rfl

theorem alookup_cons {α β : Type} [DecidableEq α] (kv : α × β) (l : List (α × β)) (k : α) :
    alookup (kv :: l) k = if kv.1 = k then some kv.2 else alookup l k := by
  by_cases h : kv.1 = k <;> simp [alookup, List.find?_cons, beq_iff_eq, h]

theorem aset_lookup_same {α β : Type} [DecidableEq α] (l : List (α × β)) (k : α) (v : β) :
    alookup (aset l k v) k = some v := by
  induction l with
  | nil => simp [aset, alookup_cons]
  | cons kv t ih =>
    by_cases h : kv.1 = k
    · simp [aset, h, alookup_cons]
    · simp [aset, h, alookup_cons, ih]

theorem aset_lookup_other {α β : Type} [DecidableEq α] (l : List (α × β)) (k k' : α) (v : β)
    (h : k' ≠ k) : alookup (aset l k v) k' = alookup l k' := by
  induction l with
  | nil =>
    simp [aset, alookup_cons, alookup_nil]
    exact h.symm
  | cons kv t ih =>
    by_cases hk : kv.1 = k
    · subst hk
      have hne : kv.1 ≠ k' := fun hh => h hh.symm
      simp [aset, alookup_cons, hne]
    · simp [aset, hk, alookup_cons, ih]

/-!
## The optimizer wrapper chain and `inherit_from`
(`src/nanotron/optim/inherit_from_other_optimizer.py`, lines 87-92)

A running optimizer is a chain of `InheritFromOtherOptimizer` wrappers around
an innermost non-wrapper (e.g. a raw torch) optimizer.  Each node carries the
list of class names it is an `isinstance` of.  `wrap` nodes are exactly the
`InheritFromOtherOptimizer` instances; the `isinstance(self.optimizer,
InheritFromOtherOptimizer)` guard of the source is the structural match on
the inner node.
-/

inductive Optim : Type
  | base (classes : List String)
  | wrap (classes : List String) (inner : Optim)
deriving DecidableEq

/-- Python `isinstance(o, cls)` on the outermost object of a chain. -/
def isInstanceOf : Optim → String → Bool
  | .base cs, c => cs.contains c
  | .wrap cs _, c => cs.contains c

/-- Method `InheritFromOtherOptimizer.inherit_from` (lines 87-92): `True` if the
wrapper itself is an instance of `cls`; otherwise recurse into the wrapped
optimizer, but only while it is itself an `InheritFromOtherOptimizer`.
A `base` node has no `inherit_from` method; the top-level `base` case below
is never reached from a wrapper (the recursion is guarded by the match). -/
def inheritFrom : Optim → String → Bool
  | .base _, _ => false
  | .wrap cs (.base _), c => if cs.contains c then true else false
  | .wrap cs (.wrap cs' inner'), c =>
    if cs.contains c then true else inheritFrom (.wrap cs' inner') c

/-- The class lists of the wrapper prefix of a chain: all wrappers reachable
through `.optimizer` fields, stopping at the first non-wrapper. -/
def wrapperClasses : Optim → List String
  | .base _ => []
  | .wrap cs inner => cs ++ wrapperClasses inner

theorem inheritFrom_eq_mem_wrapperClasses (o : Optim) (c : String) :
    inheritFrom o c = true ↔ c ∈ wrapperClasses o := by
  induction o with
  | base cs => simp [inheritFrom, wrapperClasses]
  | wrap cs inner ih =>
    by_cases h : cs.contains c = true
    · have hc : c ∈ cs := by simpa using h
      cases inner with
      | base cs' => simp [inheritFrom, wrapperClasses, h, hc]
      | wrap cs' inner' => simp [inheritFrom, wrapperClasses, h, hc]
    · have hc : c ∉ cs := by simpa using h
      cases inner with
      | base cs' => simp [inheritFrom, wrapperClasses, h, hc]
      | wrap cs' inner' => simp [inheritFrom, wrapperClasses, h, hc, ih]

/-!
## Shard filenames and the glob patterns used to find them
(`src/nanotron/serialize/optimizer.py`, lines 30-54, 222-237, 427-431)
-/

/-- Modelled from the spec: `ObjectType.OPTIMIZER.value` is defined in
`nanotron/serialize/utils.py`, which is not among the provided sources; the
spec's file-layout section (§6) fixes the filename stem `optimizer`. -/
def optimizerFileStem : String := "optimizer"

/-- Function `get_optimizer_filename` (lines 30-54).  Each topology argument is a
`(rank, size)` pair.  The `_dp-...` segment is emitted only when
`is_zero` is true; otherwise the `dp` argument is ignored. -/
def getOptimizerFilename (tpT ppT dpT expT : Nat × Nat) (isZero : Bool) : String :=
  if isZero then
    optimizerFileStem ++ "_pp-" ++ Nat.repr ppT.1 ++ "-of-" ++ Nat.repr ppT.2 ++
      "_dp-" ++ Nat.repr dpT.1 ++ "-of-" ++ Nat.repr dpT.2 ++
      "_tp-" ++ Nat.repr tpT.1 ++ "-of-" ++ Nat.repr tpT.2 ++
      "_exp-" ++ Nat.repr expT.1 ++ "-of-" ++ Nat.repr expT.2 ++ ".pt"
  else
    optimizerFileStem ++ "_pp-" ++ Nat.repr ppT.1 ++ "-of-" ++ Nat.repr ppT.2 ++
      "_tp-" ++ Nat.repr tpT.1 ++ "-of-" ++ Nat.repr tpT.2 ++
      "_exp-" ++ Nat.repr expT.1 ++ "-of-" ++ Nat.repr expT.2 ++ ".pt"

/-- The glob pattern used by `load_optimizer` for ZeRO checkpoints
(lines 222-226 and 427-431): wildcards for every rank, the checkpoint sizes
fixed. -/
def zeroShardGlob (ppSize dpSize tpSize expSize : Nat) : String :=
  optimizerFileStem ++ "_pp-" ++ "*" ++ "-of-" ++ Nat.repr ppSize ++
    "_dp-" ++ "*" ++ "-of-" ++ Nat.repr dpSize ++
    "_tp-" ++ "*" ++ "-of-" ++ Nat.repr tpSize ++
    "_exp-" ++ "*" ++ "-of-" ++ Nat.repr expSize ++ ".pt"

/-- The glob pattern used by `load_optimizer` for non-ZeRO checkpoints
(lines 233-237): note that it ends right after the tp size — there is no
`_exp-...` segment before `.pt`. -/
def nonZeroShardGlob (ppSize tpSize : Nat) : String :=
  optimizerFileStem ++ "_pp-" ++ "*" ++ "-of-" ++ Nat.repr ppSize ++
    "_tp-" ++ "*" ++ "-of-" ++ Nat.repr tpSize ++ ".pt"

/-- One `*` of a glob: try every split point of the remaining string. -/
def globStar (g : List Char → Bool) : List Char → Bool
  | [] => g []
  | d :: s => g (d :: s) || globStar g s

/-- Glob matching as performed by `Path.glob` on these patterns: `*` matches
any (possibly empty) character sequence, every other character matches
itself.  (The filenames contain no path separators, so the no-`/` restriction
of real glob is irrelevant here.) -/
def globMatch : List Char → List Char → Bool
  | [], s => s.isEmpty
  | c :: p, s =>
    if c = '*' then globStar (globMatch p) s
    else
      match s with
      | [] => false
      | d :: s' => c == d && globMatch p s'

theorem globMatch_nil_nil : globMatch [] [] = true := rfl

theorem globStar_of_here (g : List Char → Bool) (s : List Char) (h : g s = true) :
    globStar g s = true := by
  cases s with
  | nil => simpa [globStar] using h
  | cons d t => simp [globStar, h]

/-- A `*` absorbs any leading chunk of the string. -/
theorem globStar_absorb (g : List Char → Bool) (s₁ s₂ : List Char) (h : g s₂ = true) :
    globStar g (s₁ ++ s₂) = true := by
  induction s₁ with
  | nil => simpa using globStar_of_here g s₂ h
  | cons d t ih => simp [globStar, ih]

/-- Prepending the same chunk to pattern and string preserves a match. -/
theorem globMatch_lit_mono (l : List Char) :
    ∀ p s : List Char, globMatch p s = true → globMatch (l ++ p) (l ++ s) = true := by
  induction l with
  | nil => intro p s h; simpa using h
  | cons c t ih =>
    intro p s h
    by_cases hc : c = '*'
    · subst hc
      have h1 : globStar (globMatch (t ++ p)) (t ++ s) = true :=
        globStar_of_here _ _ (ih p s h)
      simp [globMatch, globStar, h1]
    · simp [globMatch, hc, ih p s h]

theorem globMatch_self (l : List Char) : globMatch l l = true := by
  simpa using globMatch_lit_mono l [] [] rfl

/-- A star in front of the pattern absorbs any chunk of the string. -/
theorem globMatch_star_absorb (s₁ : List Char) (p s₂ : List Char)
    (h : globMatch p s₂ = true) : globMatch ('*' :: p) (s₁ ++ s₂) = true := by
  have := globStar_absorb (globMatch p) s₁ s₂ h
  simp [globMatch, this]

/-- Every ZeRO shard filename produced at save time is matched by the ZeRO
glob pattern built from the checkpoint sizes, for arbitrary rank values. -/
theorem zeroGlob_matches_all (pr ps dr ds tr ts er es : Nat) :
    globMatch (zeroShardGlob ps ds ts es).data
      (getOptimizerFilename (tr, ts) (pr, ps) (dr, ds) (er, es) true).data = true := by
  have hstar : ("*" : String).data = ['*'] := rfl
  simp only [zeroShardGlob, getOptimizerFilename, if_true, optimizerFileStem,
    String.data_append, hstar, List.append_assoc, List.singleton_append]
  apply globMatch_lit_mono
  apply globMatch_lit_mono
  apply globMatch_star_absorb
  apply globMatch_lit_mono
  apply globMatch_lit_mono
  apply globMatch_lit_mono
  apply globMatch_star_absorb
  apply globMatch_lit_mono
  apply globMatch_lit_mono
  apply globMatch_lit_mono
  apply globMatch_star_absorb
  apply globMatch_lit_mono
  apply globMatch_lit_mono
  apply globMatch_lit_mono
  apply globMatch_star_absorb
  apply globMatch_lit_mono
  apply globMatch_lit_mono
  exact globMatch_self _

/-- Does `hay` start with `needle`? (helper for substring search) -/
def begMatch : List Char → List Char → Bool
  | [], _ => true
  | _ :: _, [] => false
  | a :: as, b :: bs => a == b && begMatch as bs

/-- Does `hay` contain `needle` as a contiguous segment? -/
def containsSeg (needle : List Char) : List Char → Bool
  | [] => begMatch needle []
  | c :: t => begMatch needle (c :: t) || containsSeg needle t

/-!
## Data model for optimizer state dicts and checkpoint shards
-/

/-- A tensor is an opaque flat buffer of elements (§1 of the spec: tensors are
opaque arrays addressed by shape and flat offset ranges). -/
abbrev Tensor := List Int

/-- Python exceptions raised along the modelled paths. -/
inductive ZErr : Type
  | keyError
  | nameError
  | indexError
  | valueError
  | assertTpSize
  | assertNumelZero
  | fileNotFound
deriving DecidableEq

/-- An optimizer state dict as produced by `optimizer.state_dict()` and stored
in each shard file: `{"state": {param_index: {state_name: tensor}},
"names": {param_index: param_name}, "gradient_accumulator": {param_name: tensor}}`
(spec §6; `load_optimizer` lines 363, 417, 443, 457-467, 480-485). -/
structure OptimStateDict : Type where
  state : List (Nat × List (String × Tensor))
  names : List (Nat × String)
  gradAccum : List (String × Tensor)
deriving DecidableEq

/-!
## `save_optimizer` (lines 64-135)
-/

/-- Observable effects of one process's `save_optimizer` call. -/
structure SaveOut : Type where
  /-- the shard file written by `torch.save` (filename and payload), if any -/
  wrote : Option (String × OptimStateDict)
  /-- whether `root_folder / "optimizer"` was created (`mkdir`, line 80) -/
  madeDir : Bool
  /-- whether this process wrote `optimizer_config.json` (world rank 0, line 82) -/
  configWritten : Bool
  /-- whether the written config contains `param_name_to_dp_rank_offsets` /
  `orig_param_shapes` — guarded by `isinstance(optimizer,
  ZeroDistributedOptimizer)` (line 100), not by `inherit_from` -/
  configHasZeroOffsets : Bool
deriving DecidableEq

/-- Function `save_optimizer` (lines 64-135) as seen by one process.  `inheritZero` is
`optimizer.inherit_from(ZeroDistributedOptimizer)` (lines 73, 133);
`isinstanceZero` is `isinstance(optimizer, ZeroDistributedOptimizer)`
(line 100). -/
def saveOptimizer (inheritZero isinstanceZero : Bool) (sd : OptimStateDict)
    (tpRank tpSize ppRank ppSize dpRank dpSize expRank expSize worldRank : Nat) :
    SaveOut :=
  if inheritZero = false ∧ 0 < dpRank then
    -- line 73-75: Zero-0 and dp rank > 0: return before any filesystem action
    { wrote := none, madeDir := false, configWritten := false, configHasZeroOffsets := false }
  else
    { wrote := some
        (getOptimizerFilename (tpRank, tpSize) (ppRank, ppSize) (dpRank, dpSize)
          (expRank, expSize) inheritZero, sd),
      madeDir := true,
      configWritten := worldRank == 0,
      configHasZeroOffsets := (worldRank == 0) && isinstanceZero }

/-!
## `load_optimizer`, fixed tp/pp branch (lines 189-198, 365-384, 426-433, 487)

When the checkpoint's tp and pp sizes equal the current ones, the shard file
is read directly with `torch.load` (line 369).  The dp coordinate of the
filename is computed as `pp_rank // ckp_dp_size` (line 379) — from the
pipeline-parallel rank, not the data-parallel rank.  The final
`optimizer.load_state_dict` call (line 487) sits inside the
`isinstance(optimizer, ZeroDistributedOptimizer)` block that starts at
line 426, so it only runs for a ZeRO optimizer.
-/

/-- Observable results of the fixed-topology load branch. -/
structure FixedLoadOut : Type where
  /-- the filename passed to `torch.load` (line 369) -/
  readName : String
  /-- the state dict read from that file (`none` = file absent, torch raises) -/
  readState : Option OptimStateDict
  /-- whether the ZeRO dp-reshard branch (line 433) is entered -/
  dpReshardNeeded : Bool
  /-- the state dict handed to `optimizer.load_state_dict` (line 487), when it
  runs without a dp reshard; `none` when `load_state_dict` is never called -/
  applied : Option OptimStateDict
deriving DecidableEq

/-- The fixed-topology branch of `load_optimizer`.  `files` is the checkpoint
directory's content (filename → payload).  `dpRank` is the process's actual
data-parallel rank; the source never uses it to build the filename.  When
`dpReshardNeeded` is true the dp-reshard engine (`zeroDpReshard` below) takes
over before `load_state_dict`. -/
def loadOptimizerFixedTopology (ckpDpSize : Nat)
    (tpRank tpSize ppRank ppSize dpRank dpSize expRank expSize : Nat)
    (inheritZero isinstanceZero : Bool)
    (files : List (String × OptimStateDict)) : FixedLoadOut :=
  let fname := getOptimizerFilename (tpRank, tpSize) (ppRank, ppSize)
      (ppRank / ckpDpSize, ckpDpSize) (expRank, expSize) inheritZero
  let rd := alookup files fname
  let needsReshard := isinstanceZero && (ckpDpSize != dpSize)
  { readName := fname,
    readState := rd,
    dpReshardNeeded := needsReshard,
    applied := if isinstanceZero && !needsReshard then rd else none }

/-!
## Sample data used in concrete evaluations
-/

/-- A sample state dict (as saved by dp rank 0). -/
def sdA : OptimStateDict :=
  { state := [(0, [("exp_avg", [1]), ("exp_avg_sq", [2]), ("step", [7])])],
    names := [(0, "w")],
    gradAccum := [("w", [3])] }

/-- A different sample state dict (as saved by dp rank 1). -/
def sdB : OptimStateDict :=
  { state := [(0, [("exp_avg", [4]), ("exp_avg_sq", [5]), ("step", [7])])],
    names := [(0, "w")],
    gradAccum := [("w", [6])] }

/-- C8: `save_optimizer` writes a shard file iff the optimizer is
ZeRO-sharded (`inherit_from(ZeroDistributedOptimizer)`) or the process's
data-parallel rank is 0; a non-ZeRO process with dp rank > 0 returns before
creating any directory or file; under ZeRO the file written is the one named
after the process's own dp rank. -/
theorem c8_save_writer_gating (z iz : Bool) (sd : OptimStateDict)
    (tpRank tpSize ppRank ppSize dpRank dpSize expRank expSize worldRank : Nat) :
    ((saveOptimizer z iz sd tpRank tpSize ppRank ppSize dpRank dpSize expRank expSize
        worldRank).wrote.isSome = true ↔ (z = true ∨ dpRank = 0))
    ∧ (z = false → 0 < dpRank →
        saveOptimizer z iz sd tpRank tpSize ppRank ppSize dpRank dpSize expRank expSize
            worldRank
          = { wrote := none, madeDir := false, configWritten := false,
              configHasZeroOffsets := false })
    ∧ (z = true →
        (saveOptimizer z iz sd tpRank tpSize ppRank ppSize dpRank dpSize expRank expSize
            worldRank).wrote
          = some (getOptimizerFilename (tpRank, tpSize) (ppRank, ppSize) (dpRank, dpSize)
              (expRank, expSize) true, sd)) := by
  cases z <;> cases dpRank <;> simp [saveOptimizer]

/-- C8 witness: concrete instantiation — a non-ZeRO process with dp rank 1
performs no filesystem action at all, by `c8_save_writer_gating`. -/
theorem c8_save_writer_gating_witness :
    saveOptimizer false false sdA 0 1 0 1 1 2 0 1 3
      = { wrote := none, madeDir := false, configWritten := false,
          configHasZeroOffsets := false } :=
  (c8_save_writer_gating false false sdA 0 1 0 1 1 2 0 1 3).2.1 rfl (by decide)

/-- C1: evaluation of the save/load round trip at a fixed topology
(tp = pp = exp = 1, dp = 2, ZeRO-1) at the concrete failing input.  Rank
(pp 0, dp 1) saves `sdB` under its own filename, but the fixed-topology load
computes the shard's dp index as `pp_rank // ckp_dp_size = 0` (line 379) and
applies dp rank 0's `sdA` instead; moreover for a non-ZeRO optimizer the read
state is never passed to `load_state_dict` (line 487 sits inside the
ZeRO-only `isinstance` block), so the round trip fails there as well. -/
theorem c1_round_trip_broken_eval :
    ((saveOptimizer true true sdB 0 1 0 1 1 2 0 1 1).wrote
        = some (getOptimizerFilename (0, 1) (0, 1) (1, 2) (0, 1) true, sdB))
    ∧ ((loadOptimizerFixedTopology 2 0 1 0 1 1 2 0 1 true true
          [(getOptimizerFilename (0, 1) (0, 1) (0, 2) (0, 1) true, sdA),
           (getOptimizerFilename (0, 1) (0, 1) (1, 2) (0, 1) true, sdB)]).applied
        = some sdA)
    ∧ sdA ≠ sdB
    ∧ ((loadOptimizerFixedTopology 2 0 1 0 1 1 2 0 1 false false
          [(getOptimizerFilename (0, 1) (0, 1) (0, 2) (0, 1) false, sdA)]).readState
        = some sdA)
    ∧ ((loadOptimizerFixedTopology 2 0 1 0 1 1 2 0 1 false false
          [(getOptimizerFilename (0, 1) (0, 1) (0, 2) (0, 1) false, sdA)]).applied
        = none) := by
  decide

/-- The wrapper chain used to separate the two is-ZeRO checks: a wrapper that
is not itself a `ZeroDistributedOptimizer` but wraps one. -/
def c9Chain : Optim :=
  .wrap ["InheritFromOtherOptimizer", "NamedOptimizer"]
    (.wrap ["InheritFromOtherOptimizer", "ZeroDistributedOptimizer"]
      (.base ["AdamW"]))

/-- C9 counterexample: `inherit_from` does not govern every is-ZeRO decision
of `save_optimizer`: for a wrapper chain where `inherit_from` answers true
but the outermost `isinstance` answers false, `save_optimizer` writes a
`_dp-`-segmented ZeRO filename (decision via `inherit_from`, line 133) while
the config it writes carries no ZeRO offset tables (decision via
`isinstance`, line 100). -/
theorem c9_two_zero_checks_disagree :
    inheritFrom c9Chain "ZeroDistributedOptimizer" = true
    ∧ isInstanceOf c9Chain "ZeroDistributedOptimizer" = false
    ∧ containsSeg ("_dp-").data
        (((saveOptimizer (inheritFrom c9Chain "ZeroDistributedOptimizer")
            (isInstanceOf c9Chain "ZeroDistributedOptimizer")
            sdA 0 1 0 1 0 1 0 1 0).wrote.map (fun fs => fs.1)).getD "").data = true
    ∧ (saveOptimizer (inheritFrom c9Chain "ZeroDistributedOptimizer")
        (isInstanceOf c9Chain "ZeroDistributedOptimizer")
        sdA 0 1 0 1 0 1 0 1 0).configHasZeroOffsets = false := by
  decide

/-- C9 amended: `inherit_from(cls)` is true iff `cls` is among the classes of
some wrapper on the `.optimizer` chain (stopping at the first non-wrapper);
in particular an innermost non-wrapper optimizer that is an instance of `cls`
still yields false.  It governs the save early-return and the shard filename
format, but not every is-ZeRO decision: writing the ZeRO offset tables into
the manifest uses a plain outermost `isinstance` check, which can disagree
with `inherit_from`. -/
theorem c9_inherit_from_walk :
    (∀ (o : Optim) (c : String), inheritFrom o c = true ↔ c ∈ wrapperClasses o)
    ∧ inheritFrom
        (.wrap ["InheritFromOtherOptimizer"] (.base ["ZeroDistributedOptimizer"]))
        "ZeroDistributedOptimizer" = false
    ∧ (saveOptimizer true false sdA 0 1 0 1 0 1 0 1 0).configHasZeroOffsets = false
    ∧ (saveOptimizer true true sdA 0 1 0 1 0 1 0 1 0).configHasZeroOffsets = true :=
  ⟨inheritFrom_eq_mem_wrapperClasses, by decide, by decide, by decide⟩

/-- C4 counterexample: for a non-ZeRO checkpoint saved at pp = 1, tp = 2,
exp = 1, the glob pattern built by `load_optimizer` (line 235) does not match
the filename produced by `get_optimizer_filename` at save time — the pattern
omits the `_exp-...` segment and requires the name to end with the tp size,
while the saved name ends with the exp size. -/
theorem c4_nonzero_glob_misses_saved_file :
    globMatch (nonZeroShardGlob 1 2).data
        (getOptimizerFilename (0, 2) (0, 1) (0, 1) (0, 1) false).data = false
    ∧ getOptimizerFilename (0, 2) (0, 1) (0, 1) (0, 1) false
        = "optimizer_pp-0-of-1_tp-0-of-2_exp-0-of-1.pt"
    ∧ nonZeroShardGlob 1 2 = "optimizer_pp-*-of-1_tp-*-of-2.pt" := by
  decide

/-- C4 amended: the ZeRO glob pattern matches every saved ZeRO shard filename
(for arbitrary ranks and sizes), and the `_dp-` segment is present in a saved
filename iff the checkpoint is ZeRO; but the non-ZeRO glob omits the `_exp-`
segment, so it only matches saved filenames when the textual exp size
coincides with the tp size (the tp wildcard then absorbs `_exp-<r>`, e.g.
with both sizes 1), and misses them otherwise. -/
theorem c4_glob_patterns_amended :
    (∀ pr ps dr ds tr ts er es : Nat,
      globMatch (zeroShardGlob ps ds ts es).data
        (getOptimizerFilename (tr, ts) (pr, ps) (dr, ds) (er, es) true).data = true)
    ∧ globMatch (nonZeroShardGlob 1 1).data
        (getOptimizerFilename (0, 1) (0, 1) (0, 1) (0, 1) false).data = true
    ∧ containsSeg ("_dp-").data
        (getOptimizerFilename (0, 1) (0, 1) (0, 2) (0, 1) true).data = true
    ∧ containsSeg ("_dp-").data
        (getOptimizerFilename (0, 1) (0, 1) (0, 2) (0, 1) false).data = false :=
  ⟨zeroGlob_matches_all, by decide, by decide, by decide⟩

/-!
## Topology-agnostic load: tied-parameter name resolution
(`load_optimizer`, lines 255-282)

Each model parameter is visited in `model.state_dict()` order.  Its base name
is the tied-info name when tied, otherwise the parameter name itself
(line 276); an occurrence whose name differs from its base name is skipped
when the base name is already mapped (lines 277-281); otherwise the index is
mapped to the base name (line 282).  Optimizer state is populated exactly for
the non-skipped entries.
-/

/-- One step of the naming loop (lines 276-282); `e` is
`(param_index, (param_name, base_name))`. -/
def addParamName (acc : List (Nat × String)) (e : Nat × String × String) :
    List (Nat × String) :=
  if e.2.1 = e.2.2 then acc ++ [(e.1, e.2.2)]
  else if e.2.2 ∈ acc.map Prod.snd then acc
  else acc ++ [(e.1, e.2.2)]

/-- The `new_optim_state_param_names` map built by the loop at lines 259-282,
as a function of the parameter iteration order. -/
def buildNewOptimStateParamNames (params : List (Nat × String × String)) :
    List (Nat × String) :=
  params.foldl addParamName []

/-- The iteration-order discipline under which the skip logic is sound: a
later entry sharing an earlier entry's base name is never canonical
(i.e. each canonical occurrence precedes all other occurrences of its base
name). -/
def tiedOrder (a b : Nat × String × String) : Prop :=
  a.2.2 = b.2.2 → b.2.1 ≠ b.2.2

theorem map_snd_concat_nodup (acc : List (Nat × String)) (x : Nat × String)
    (hacc : (acc.map Prod.snd).Nodup) (hx : x.2 ∉ acc.map Prod.snd) :
    (((acc ++ [x]).map Prod.snd)).Nodup := by
  rw [List.map_append, List.nodup_append]
  refine ⟨hacc, by simp, ?_⟩
  intro a ha
  simp only [List.map_cons, List.map_nil, List.mem_singleton]
  intro hcontra
  subst hcontra
  exact hx ha

theorem buildNames_nodup_aux :
    ∀ (l : List (Nat × String × String)) (acc : List (Nat × String)),
      (acc.map Prod.snd).Nodup →
      (∀ e ∈ l, e.2.1 = e.2.2 → e.2.2 ∉ acc.map Prod.snd) →
      l.Pairwise tiedOrder →
      ((l.foldl addParamName acc).map Prod.snd).Nodup := by
  intro l
  induction l with
  | nil => intro acc hacc _ _; simpa using hacc
  | cons e t ih =>
    intro acc hacc hcanon hp
    have hrel : ∀ b ∈ t, tiedOrder e b := (List.pairwise_cons.mp hp).1
    have hp' : t.Pairwise tiedOrder := (List.pairwise_cons.mp hp).2
    rw [List.foldl_cons]
    by_cases he : e.2.1 = e.2.2
    · have hnotin : e.2.2 ∉ acc.map Prod.snd := hcanon e (List.mem_cons_self e t) he
      have hstep : addParamName acc e = acc ++ [(e.1, e.2.2)] := by
        simp [addParamName, he]
      rw [hstep]
      apply ih
      · exact map_snd_concat_nodup acc (e.1, e.2.2) hacc hnotin
      · intro e' he' hcan'
        have h1 : e'.2.2 ∉ acc.map Prod.snd := hcanon e' (List.mem_cons_of_mem e he') hcan'
        have h2 : e'.2.2 ≠ e.2.2 := fun hq => (hrel e' he' hq.symm) hcan'
        simp [List.map_append, h1, h2]
      · exact hp'
    · by_cases hm : e.2.2 ∈ acc.map Prod.snd
      · have hstep : addParamName acc e = acc := by simp [addParamName, he, hm]
        rw [hstep]
        exact ih acc hacc (fun e' he' => hcanon e' (List.mem_cons_of_mem e he')) hp'
      · have hstep : addParamName acc e = acc ++ [(e.1, e.2.2)] := by
          simp [addParamName, he, hm]
        rw [hstep]
        apply ih
        · exact map_snd_concat_nodup acc (e.1, e.2.2) hacc hm
        · intro e' he' hcan'
          have h1 : e'.2.2 ∉ acc.map Prod.snd := hcanon e' (List.mem_cons_of_mem e he') hcan'
          have h2 : e'.2.2 ≠ e.2.2 := fun hq => (hrel e' he' hq.symm) hcan'
          simp [List.map_append, h1, h2]
        · exact hp'

/-- C6 counterexample: when the canonical tied parameter occurs after its
alias in iteration order, the skip at lines 277-281 does not apply (it only
guards occurrences with `param_name != base_name`), so both indices are
inserted and the names map assigns the same base name to two parameter
indices — each of which then gets its optimizer state populated. -/
theorem c6_canonical_after_alias_duplicated :
    buildNewOptimStateParamNames [(0, ("lm_head.w", "emb.w")), (1, ("emb.w", "emb.w"))]
      = [(0, "emb.w"), (1, "emb.w")]
    ∧ ¬ ((buildNewOptimStateParamNames
          [(0, ("lm_head.w", "emb.w")), (1, ("emb.w", "emb.w"))]).map Prod.snd).Nodup := by
  decide

/-- C6 amended: second and subsequent alias occurrences (`param_name ≠
base_name`) of an already-mapped base name are skipped; provided every
canonical occurrence (`param_name = base_name`) precedes all other
occurrences of its base name (the `tiedOrder` discipline — in particular the
usual registration order where the canonical parameter comes first), the
names map never assigns the same base name to two parameter indices, so
exactly one state entry is populated per canonical name. -/
theorem c6_names_map_single_copy (l : List (Nat × String × String))
    (hp : l.Pairwise tiedOrder) :
    ((buildNewOptimStateParamNames l).map Prod.snd).Nodup :=
  buildNames_nodup_aux l [] (by simp) (by simp) hp

/-- C6 witness: canonical-first iteration order satisfies `tiedOrder` and
yields a duplicate-free names map, by `c6_names_map_single_copy`. -/
theorem c6_names_map_single_copy_witness :
    ([((0 : Nat), ("emb.w", "emb.w")), ((1 : Nat), ("lm_head.w", "emb.w"))] :
        List (Nat × String × String)).Pairwise tiedOrder
    ∧ ((buildNewOptimStateParamNames
          [(0, ("emb.w", "emb.w")), (1, ("lm_head.w", "emb.w"))]).map Prod.snd).Nodup :=
  ⟨by unfold tiedOrder; decide,
   c6_names_map_single_copy _ (by unfold tiedOrder; decide)⟩

/-!
## Topology-agnostic load: the per-parameter `step` value
(`load_optimizer`, lines 301-306, 336-341 and 355-359)

After the state-restore loop over the checkpoint's `(pp_rank, tp_rank)`
shards, the code reads `ckp_optim_state["state"][old_optim_state_index]
.get("step")` from the *leftover loop variables*, i.e. from whichever shard
the iteration visited last, and stores that value when present.
-/

/-- A shard of the topology-agnostic path: its index→name table and its
per-index scalar state (only `step` matters here). -/
structure AgnosticShard : Type where
  names : List (Nat × String)
  state : List (Nat × List (String × Int))
deriving DecidableEq

/-- Modelled from the spec: `find_optim_index_from_param_name` lives in
`nanotron/optim/zero.py`, which is not among the provided sources.  Per the
spec (§3, §6) each shard maps optimizer state indices to parameter names;
the function returns the index under which `paramName`'s state is stored in
the given shard, or `None` when the parameter is absent from it. -/
def findOptimIndexFromParamName (sh : AgnosticShard) (paramName : String) :
    Option Nat :=
  ((sh.names).find? (fun kv => kv.2 == paramName)).map (fun kv => kv.1)

/-- The `step` value stored for one parameter by lines 355-359, as a function
of the shard iteration order: the loop variables retain the last-visited
shard (lines 301/336 iterate `ckp_sharded_optim_states.items()`; assignments
happen before any `continue`), so the stored step is read from the final
shard — with a `KeyError` when that shard does not even contain the
parameter, and a `NameError` when there was no shard at all. -/
def stepAfterParamRestore (shards : List ((Nat × Nat) × AgnosticShard))
    (baseName : String) : Except ZErr (Option Int) :=
  match shards.getLast? with
  | none => .error .nameError
  | some last =>
    match findOptimIndexFromParamName last.2 baseName with
    | none => .error .keyError
    | some idx =>
      match alookup last.2.state idx with
      | none => .error .keyError
      | some entry => .ok (alookup entry "step")

/-- A shard holding `step = 5` for parameter `w`. -/
def agnShard5 : AgnosticShard :=
  { names := [(0, "w")], state := [(0, [("exp_avg", 1), ("step", 5)])] }

/-- A shard holding `step = 9` for parameter `w`. -/
def agnShard9 : AgnosticShard :=
  { names := [(0, "w")], state := [(0, [("exp_avg", 2), ("step", 9)])] }

/-- C7 counterexample: two contributing shards disagree on `step` (5 vs 9);
the load does not fail — it silently stores the last-visited shard's value 9,
while the first shard alone would have produced 5. -/
theorem c7_step_disagreement_not_detected :
    stepAfterParamRestore [((0, 0), agnShard5), ((0, 1), agnShard9)] "w" = .ok (some 9)
    ∧ stepAfterParamRestore [((0, 0), agnShard5)] "w" = .ok (some 5)
    ∧ (5 : Int) ≠ 9 :=
  ⟨rfl, rfl, by decide⟩

/-- C7 amended: the stored `step` depends only on the last-visited shard —
any two shard sequences with the same final shard yield the same result, so
no cross-shard agreement is checked and disagreeing earlier shards are
silently ignored. -/
theorem c7_step_from_last_visited_shard
    (l₁ l₂ : List ((Nat × Nat) × AgnosticShard)) (x : (Nat × Nat) × AgnosticShard)
    (b : String) :
    stepAfterParamRestore (l₁ ++ [x]) b = stepAfterParamRestore (l₂ ++ [x]) b := by
  simp [stepAfterParamRestore, List.getLast?_concat]

/-!
## ZeRO data-parallel resharding
(`load_optimizer`, lines 386-487)

Entered when the current optimizer is a `ZeroDistributedOptimizer` and the
checkpoint's dp size differs from the current one.  The state dict being
rebuilt (`state_dict`) is mutated in place by the source; the model passes it
explicitly and the driver returns the state reached so far together with the
error, so that a failure's position relative to the mutations is visible.
-/

/-- Python slice assignment `buf[s:e] = src` (always used here with
`src` of length `e - s` and `e ≤ buf.length`; other cases raise, see
`writeStateSlice`). -/
def setSlice (buf : Tensor) (s e : Nat) (src : Tensor) : Tensor :=
  buf.take s ++ src ++ buf.drop e

/-- Python slicing `t[s:e]`. -/
def pySlice (t : Tensor) (s e : Nat) : Tensor := (t.drop s).take (e - s)

/-- Modelled from the spec: `get_sliced_tensor` lives in
`nanotron/optim/zero.py`, which is not among the provided sources.  Per the
spec (§4.5, step 3) it returns the flat `[start, end)` slice of a flattened
parameter buffer. -/
def getSlicedTensor (t : Tensor) (s e : Nat) : Tensor := pySlice t s e

/-- The `numel` of a shape; `torch.zeros(p_shape).view(-1)` has this length. -/
def numel (dims : List Nat) : Nat := dims.foldl (fun a d => a * d) 1

/-- One ZeRO shard file's payload: `checkpoint["state"]` keyed by optimizer
state index, and `checkpoint["gradient_accumulator"]` keyed by parameter
name (`load_sharded_states`, lines 403-409). -/
structure ZeroCkpShard : Type where
  state : List (Nat × List (String × Tensor))
  gradAccum : List (String × Tensor)
deriving DecidableEq

/-- The checkpoint-side inputs of the reshard: the manifest's sizes, original
parameter shapes and per-(parameter, dp rank) offset table (all json strings
in the source, converted with `int(...)` at use sites). -/
structure CkpOptimConfig : Type where
  tpSize : Nat
  ppSize : Nat
  dpSize : Nat
  origParamShapes : List (String × List Nat)
  dpRankOffsets : List (String × List (Nat × (Nat × Nat)))
deriving DecidableEq

/-- The current process's side: its tp/dp coordinates and the current
optimizer's `param_name_to_dp_rank_offsets` table. -/
structure CurrentCtx : Type where
  tpSize : Nat
  tpRank : Nat
  dpSize : Nat
  dpRank : Nat
  curOffsets : List (String × List (Nat × (Nat × Nat)))
deriving DecidableEq

/-- Function `create_merged_optim_states` (lines 386-394): a zero-initialized flat
buffer per parameter for the hard-coded keys `exp_avg` and `exp_avg_sq`. -/
def createMergedOptimStates (shapes : List (String × List Nat)) :
    List (String × List (String × Tensor)) :=
  shapes.map (fun ps =>
    (ps.1, [("exp_avg", List.replicate (numel ps.2) 0),
            ("exp_avg_sq", List.replicate (numel ps.2) 0)]))

/-- Function `create_merged_gradients` (lines 396-401). -/
def createMergedGradients (shapes : List (String × List Nat)) :
    List (String × Tensor) :=
  shapes.map (fun ps => (ps.1, List.replicate (numel ps.2) 0))

/-- Function `get_key_by_value` (lines 411-412): first key of the names map bound to
the given value, else `None`. -/
def getKeyByValue (d : List (Nat × String)) (v : String) : Option Nat :=
  (d.find? (fun kv => kv.2 == v)).map (fun kv => kv.1)

/-- One write of `apply_offsets` with `state_keys` (lines 414-420), for one
`(param, dp_rank, offset)` triple and one state key:
`merged[p_name][key][s:e] = sharded_states[(tp_rank, dp_rank)][p_idx][key]`.
Missing dict keys raise (`keyError`); a slice-assignment length mismatch
raises (`valueError`). -/
def writeStateSlice (shards : List ((Nat × Nat) × ZeroCkpShard))
    (names : List (Nat × String)) (tpRank dpRank : Nat) (pname key : String)
    (off : Nat × Nat) (merged : List (String × List (String × Tensor))) :
    Except ZErr (List (String × List (String × Tensor))) :=
  match alookup shards (tpRank, dpRank) with
  | none => .error .keyError
  | some shard =>
    match getKeyByValue names pname with
    | none => .error .keyError
    | some pIdx =>
      match alookup shard.state pIdx with
      | none => .error .keyError
      | some entry =>
        match alookup entry key with
        | none => .error .keyError
        | some src =>
          match alookup merged pname with
          | none => .error .keyError
          | some bufs =>
            match alookup bufs key with
            | none => .error .keyError
            | some buf =>
              if off.1 ≤ off.2 ∧ off.2 ≤ buf.length ∧ src.length = off.2 - off.1 then
                .ok (aset merged pname (aset bufs key (setSlice buf off.1 off.2 src)))
              else .error .valueError

/-- The optimizer-state merge loop (lines 450-454): for every parameter and
every checkpoint dp rank of the manifest's offset table, copy that rank's
shard into the merged buffer at the recorded offsets, for every state key
(`apply_offsets`, lines 414-420).  The shard is addressed with the *current*
tp rank. -/
def mergeOptimStates (cfg : CkpOptimConfig)
    (shards : List ((Nat × Nat) × ZeroCkpShard)) (tpRank : Nat)
    (names : List (Nat × String)) (stateKeys : List String) :
    Except ZErr (List (String × List (String × Tensor))) :=
  cfg.dpRankOffsets.foldlM
    (fun m pr => pr.2.foldlM
      (fun m2 ro => stateKeys.foldlM
        (fun m3 key => writeStateSlice shards names tpRank ro.1 pr.1 key ro.2 m3)
        m2)
      m)
    (createMergedOptimStates cfg.origParamShapes)

/-- One write of `apply_offsets` without `state_keys` (lines 421-424):
`merged[p_name][s:e] = sharded_states[(tp_rank, dp_rank)][p_name]`. -/
def writeGradSlice (shards : List ((Nat × Nat) × ZeroCkpShard))
    (tpRank dpRank : Nat) (pname : String) (off : Nat × Nat)
    (merged : List (String × Tensor)) : Except ZErr (List (String × Tensor)) :=
  match alookup shards (tpRank, dpRank) with
  | none => .error .keyError
  | some shard =>
    match alookup shard.gradAccum pname with
    | none => .error .keyError
    | some src =>
      match alookup merged pname with
      | none => .error .keyError
      | some buf =>
        if off.1 ≤ off.2 ∧ off.2 ≤ buf.length ∧ src.length = off.2 - off.1 then
          .ok (aset merged pname (setSlice buf off.1 off.2 src))
        else .error .valueError

/-- The gradient-accumulator merge loop (lines 475-477). -/
def mergeGradAccums (cfg : CkpOptimConfig)
    (shards : List ((Nat × Nat) × ZeroCkpShard)) (tpRank : Nat) :
    Except ZErr (List (String × Tensor)) :=
  cfg.dpRankOffsets.foldlM
    (fun m pr => pr.2.foldlM
      (fun m2 ro => writeGradSlice shards tpRank ro.1 pr.1 ro.2 m2)
      m)
    (createMergedGradients cfg.origParamShapes)

/-- Line 443, `OPTIMIZER_STATE_NAMES = state_dict["state"][0].keys() - ["step"]`: raises when index 0 is absent. -/
def optimStateNames (sd : OptimStateDict) : Except ZErr (List String) :=
  match alookup sd.state 0 with
  | none => .error .keyError
  | some entry => .ok ((entry.map (fun kv => kv.1)).filter (fun k => k != "step"))

/-- Lines 457-467 for one parameter index: resolve its name (line 458,
`IndexError` when absent), then for every state key slice the merged buffer
at the *current* dp rank's offsets of the *current* optimizer's table
(line 460), assert the slice is non-empty (line 466) and store it
(line 467). -/
def sliceOneKey (cur : CurrentCtx)
    (merged : List (String × List (String × Tensor))) (pname : String)
    (pIdx : Nat) (sd2 : OptimStateDict) (key : String) :
    Except ZErr OptimStateDict :=
  match alookup cur.curOffsets pname with
  | none => .error .keyError
  | some offs =>
    match alookup offs cur.dpRank with
    | none => .error .keyError
    | some co =>
      match alookup merged pname with
      | none => .error .keyError
      | some bufs =>
        match alookup bufs key with
        | none => .error .keyError
        | some mbuf =>
          if 0 < (getSlicedTensor mbuf co.1 co.2).length then
            match alookup sd2.state pIdx with
            | none => .error .keyError
            | some entry =>
              .ok { sd2 with
                state := aset sd2.state pIdx
                  (aset entry key (getSlicedTensor mbuf co.1 co.2)) }
          else .error .assertNumelZero

def sliceParamStates (cur : CurrentCtx)
    (merged : List (String × List (String × Tensor))) (stateKeys : List String)
    (sd : OptimStateDict) (pIdx : Nat) : Except ZErr OptimStateDict :=
  match alookup sd.names pIdx with
  | none => .error .indexError
  | some pname => stateKeys.foldlM (sliceOneKey cur merged pname pIdx) sd

/-- The state-update loop (lines 456-467), iterating the parameter indices of
the state dict. -/
def sliceAllStates (cur : CurrentCtx)
    (merged : List (String × List (String × Tensor))) (stateKeys : List String)
    (sd : OptimStateDict) : Except ZErr OptimStateDict :=
  (sd.state.map (fun kv => kv.1)).foldlM (sliceParamStates cur merged stateKeys) sd

/-- The leftover value of the `dp_rank` loop variable after the
gradient-accumulator merge loop (lines 475-477): the last checkpoint dp rank
iterated, `none` when the loops never ran (Python would raise `NameError` at
line 481). -/
def lastCkpDpRank (cfg : CkpOptimConfig) : Option Nat :=
  cfg.dpRankOffsets.foldl (fun acc pr => pr.2.foldl (fun _ ro => some ro.1) acc) none

/-- The gradient-accumulator update loop (lines 480-485): for every parameter
of the gradient accumulator, look up the *current* optimizer's offsets at
`int(dp_rank)` — the leftover loop variable, not the current dp rank — and
keep that slice of the merged buffer.  (The device assert of line 482 is not
modelled: devices are outside this embedding.) -/
def sliceGradAccums (curOffsets : List (String × List (Nat × (Nat × Nat))))
    (dpLeft : Nat) (mergedG : List (String × Tensor)) (sd : OptimStateDict) :
    Except ZErr OptimStateDict :=
  (sd.gradAccum.map (fun kv => kv.1)).foldlM
    (fun sd2 pname =>
      match alookup curOffsets pname with
      | none => .error .keyError
      | some offs =>
        match alookup offs dpLeft with
        | none => .error .keyError
        | some no =>
          match alookup mergedG pname with
          | none => .error .keyError
          | some mbuf =>
            .ok { sd2 with gradAccum := aset sd2.gradAccum pname (pySlice mbuf no.1 no.2) })
    sd

/-- The ZeRO dp-reshard block of `load_optimizer` (lines 441-485), with the
tp-size assert of line 470 in its actual position: *after* the optimizer
states have been merged and re-sliced, *before* the gradient accumulator is
touched.  Returns the error (if any) together with the state dict reached at
that point; on full success the result would then be passed to
`optimizer.load_state_dict` (line 487). -/
def zeroDpReshard (cfg : CkpOptimConfig)
    (shards : List ((Nat × Nat) × ZeroCkpShard)) (cur : CurrentCtx)
    (sd : OptimStateDict) : Option ZErr × OptimStateDict :=
  match optimStateNames sd with
  | .error e => (some e, sd)
  | .ok stateKeys =>
    match mergeOptimStates cfg shards cur.tpRank sd.names stateKeys with
    | .error e => (some e, sd)
    | .ok merged =>
      match sliceAllStates cur merged stateKeys sd with
      | .error e => (some e, sd)
      | .ok sd1 =>
        if cfg.tpSize = cur.tpSize then
          match mergeGradAccums cfg shards cur.tpRank with
          | .error e => (some e, sd1)
          | .ok mergedG =>
            match lastCkpDpRank cfg with
            | none => (some .nameError, sd1)
            | some dpLeft =>
              match sliceGradAccums cur.curOffsets dpLeft mergedG sd1 with
              | .error e => (some e, sd1)
              | .ok sd2 => (none, sd2)
        else (some .assertTpSize, sd1)

theorem foldlM_except_preserve {α β E : Type} (P : β → Prop)
    (f : β → α → Except E β) :
    ∀ (l : List α) (b r : β),
      (∀ b' a b'', a ∈ l → P b' → f b' a = .ok b'' → P b'') →
      P b → l.foldlM f b = .ok r → P r := by
  intro l
  induction l with
  | nil =>
    intro b r _ hb hr
    simp only [List.foldlM_nil] at hr
    cases hr
    exact hb
  | cons a t ih =>
    intro b r hstep hb hr
    rw [List.foldlM_cons] at hr
    cases hfa : f b a with
    | error e =>
      rw [hfa] at hr
      have hred : (Except.error e >>= fun b' => t.foldlM f b') = (Except.error e : Except E β) := rfl
      rw [hred] at hr
      cases hr
    | ok b' =>
      rw [hfa] at hr
      have hred : (Except.ok b' >>= fun b' => t.foldlM f b') = t.foldlM f b' := rfl
      rw [hred] at hr
      exact ih b' r
        (fun b'' a' b''' ha' => hstep b'' a' b''' (List.mem_cons_of_mem a ha'))
        (hstep b a b' (List.mem_cons_self a t) hb hfa) hr

/-- The state-update loop only touches the `state` field: the gradient
accumulator survives it unchanged. -/
theorem sliceOneKey_gradAccum (cur : CurrentCtx)
    (merged : List (String × List (String × Tensor))) (pname : String)
    (pIdx : Nat) (sd2 sd3 : OptimStateDict) (key : String)
    (h : sliceOneKey cur merged pname pIdx sd2 key = .ok sd3) :
    sd3.gradAccum = sd2.gradAccum := by
  unfold sliceOneKey at h
  cases h1 : alookup cur.curOffsets pname with
  | none => simp only [h1] at h; exact Except.noConfusion h
  | some offs =>
    simp only [h1] at h
    cases h2 : alookup offs cur.dpRank with
    | none => simp only [h2] at h; exact Except.noConfusion h
    | some co =>
      simp only [h2] at h
      cases h3 : alookup merged pname with
      | none => simp only [h3] at h; exact Except.noConfusion h
      | some bufs =>
        simp only [h3] at h
        cases h4 : alookup bufs key with
        | none => simp only [h4] at h; exact Except.noConfusion h
        | some mbuf =>
          simp only [h4] at h
          by_cases h5 : 0 < (getSlicedTensor mbuf co.1 co.2).length
          · rw [if_pos h5] at h
            cases h6 : alookup sd2.state pIdx with
            | none => simp only [h6] at h; exact Except.noConfusion h
            | some entry =>
              simp only [h6] at h
              cases h
              rfl
          · rw [if_neg h5] at h
            cases h

theorem sliceParamStates_gradAccum (cur : CurrentCtx)
    (merged : List (String × List (String × Tensor))) (stateKeys : List String)
    (sd sd' : OptimStateDict) (pIdx : Nat)
    (h : sliceParamStates cur merged stateKeys sd pIdx = .ok sd') :
    sd'.gradAccum = sd.gradAccum := by
  unfold sliceParamStates at h
  cases hn : alookup sd.names pIdx with
  | none => rw [hn] at h; cases h
  | some pname =>
    rw [hn] at h
    exact foldlM_except_preserve (fun x => x.gradAccum = sd.gradAccum) _ stateKeys sd sd'
      (fun sd2 key sd3 _ hP hstep =>
        (sliceOneKey_gradAccum cur merged pname pIdx sd2 sd3 key hstep).trans hP)
      rfl h

theorem sliceAllStates_gradAccum (cur : CurrentCtx)
    (merged : List (String × List (String × Tensor))) (stateKeys : List String)
    (sd sd' : OptimStateDict)
    (h : sliceAllStates cur merged stateKeys sd = .ok sd') :
    sd'.gradAccum = sd.gradAccum := by
  unfold sliceAllStates at h
  exact foldlM_except_preserve (fun x => x.gradAccum = sd.gradAccum) _ _ sd sd'
    (fun sd2 pIdx sd3 _ hP hstep =>
      (sliceParamStates_gradAccum cur merged stateKeys sd2 sd3 pIdx hstep).trans hP)
    rfl h

/-- C5 amended: when the checkpoint's tp size differs from the current one,
the dp reshard always stops with an error before the gradient accumulator is
touched and before anything reaches `optimizer.load_state_dict` — but not
necessarily with the descriptive tp-size assert (an earlier `KeyError` can
fire while merging with the current tp rank), and only after the
optimizer-state entries of the in-memory state dict have been re-sliced. -/
theorem c5_tp_change_stops_before_grad_accum (cfg : CkpOptimConfig)
    (shards : List ((Nat × Nat) × ZeroCkpShard)) (cur : CurrentCtx)
    (sd : OptimStateDict) (hne : cfg.tpSize ≠ cur.tpSize) :
    (zeroDpReshard cfg shards cur sd).1.isSome = true
    ∧ (zeroDpReshard cfg shards cur sd).2.gradAccum = sd.gradAccum := by
  cases h1 : optimStateNames sd with
  | error e => simp [zeroDpReshard, h1]
  | ok stateKeys =>
    cases h2 : mergeOptimStates cfg shards cur.tpRank sd.names stateKeys with
    | error e => simp [zeroDpReshard, h1, h2]
    | ok merged =>
      cases h3 : sliceAllStates cur merged stateKeys sd with
      | error e => simp [zeroDpReshard, h1, h2, h3]
      | ok sd1 =>
        simp only [zeroDpReshard, h1, h2, h3]
        rw [if_neg hne]
        exact ⟨rfl, sliceAllStates_gradAccum cur merged stateKeys sd sd1 h3⟩

/-!
## Concrete reshard scenarios
-/

/-- Checkpoint config for the C2 scenario: ZeRO-1 saved at dp = 2, one
parameter `w` of 4 elements, offsets `{0: [0,2), 1: [2,4)}`. -/
def cfgC2 : CkpOptimConfig :=
  { tpSize := 1, ppSize := 1, dpSize := 2,
    origParamShapes := [("w", [4])],
    dpRankOffsets := [("w", [(0, (0, 2)), (1, (2, 4))])] }

/-- The two saved dp shards of the C2 scenario (tp rank 0). -/
def shardsC2 : List ((Nat × Nat) × ZeroCkpShard) :=
  [((0, 0), { state := [(0, [("exp_avg", [1, 2]), ("exp_avg_sq", [5, 6]), ("step", [99])])],
              gradAccum := [("w", [10, 11])] }),
   ((0, 1), { state := [(0, [("exp_avg", [3, 4]), ("exp_avg_sq", [7, 8]), ("step", [99])])],
              gradAccum := [("w", [12, 13])] })]

/-- Current side of the C2 scenario: dp grown to 4, this process is dp rank 0
with new offsets `{0: [0,1), 1: [1,2), 2: [2,3), 3: [3,4)}`. -/
def curC2 : CurrentCtx :=
  { tpSize := 1, tpRank := 0, dpSize := 4, dpRank := 0,
    curOffsets := [("w", [(0, (0, 1)), (1, (1, 2)), (2, (2, 3)), (3, (3, 4))])] }

/-- The state dict this process read before resharding. -/
def sdC2 : OptimStateDict :=
  { state := [(0, [("exp_avg", [0]), ("exp_avg_sq", [0]), ("step", [99])])],
    names := [(0, "w")], gradAccum := [("w", [0])] }

/-- C2: evaluation at the failing input.  The optimizer state tensors are
correctly re-sliced at the current dp rank's offsets (`exp_avg` becomes
`[1]`, the `[0,1)` slice of the merged `[1,2,3,4]`), but the gradient
accumulator is sliced at the *leftover* checkpoint dp rank (1, the last one
of the merge loop) under the new table: rank 0 receives `[11]` — the new
table's rank-1 slice — instead of its own `[10]`. -/
theorem c2_grad_accum_sliced_at_leftover_rank :
    zeroDpReshard cfgC2 shardsC2 curC2 sdC2
      = (none,
         { state := [(0, [("exp_avg", [1]), ("exp_avg_sq", [5]), ("step", [99])])],
           names := [(0, "w")], gradAccum := [("w", [11])] })
    ∧ pySlice [10, 11, 12, 13] 0 1 = [10]
    ∧ ([("w", [11])] : List (String × Tensor)) ≠ [("w", [10])] := by
  decide

/-- Checkpoint config with an offset-table gap: dp = 2 recorded, but only
rank 0's range `[0,2)` is present — elements `[2,4)` of `w` are covered by
no shard. -/
def cfgGap : CkpOptimConfig :=
  { tpSize := 1, ppSize := 1, dpSize := 2,
    origParamShapes := [("w", [4])],
    dpRankOffsets := [("w", [(0, (0, 2))])] }

/-- The single shard present in the gapped checkpoint. -/
def shardsGap : List ((Nat × Nat) × ZeroCkpShard) :=
  [((0, 0), { state := [(0, [("exp_avg", [1, 2]), ("exp_avg_sq", [5, 6]), ("step", [99])])],
              gradAccum := [("w", [10, 11])] })]

/-- Current side for the gapped load: dp = 1, whole-parameter offsets. -/
def curGap : CurrentCtx :=
  { tpSize := 1, tpRank := 0, dpSize := 1, dpRank := 0,
    curOffsets := [("w", [(0, (0, 4))])] }

/-- The state dict being rebuilt in the gapped load. -/
def sdGap : OptimStateDict :=
  { state := [(0, [("exp_avg", [0, 0, 0, 0]), ("exp_avg_sq", [0, 0, 0, 0]),
                   ("step", [99])])],
    names := [(0, "w")], gradAccum := [("w", [0, 0, 0, 0])] }

/-- C3 counterexample: with element indices `[2,4)` of `w` uncovered by the
checkpoint's offset table, the reshard does *not* fail — no coverage check
exists and no `IncompleteShardCoverageError` is defined anywhere in the
source — it completes and hands the optimizer state tensors and gradient
accumulator with silent zero-filled gaps to `load_state_dict`. -/
theorem c3_gap_silently_zero_filled :
    (zeroDpReshard cfgGap shardsGap curGap sdGap).1 = none
    ∧ (zeroDpReshard cfgGap shardsGap curGap sdGap).2.state
        = [(0, [("exp_avg", [1, 2, 0, 0]), ("exp_avg_sq", [5, 6, 0, 0]), ("step", [99])])]
    ∧ (zeroDpReshard cfgGap shardsGap curGap sdGap).2.gradAccum
        = [("w", [10, 11, 0, 0])] := by
  decide

/-- ZeRO checkpoint for the C5 scenario: saved at tp = 1, dp = 2. -/
def cfgC5 : CkpOptimConfig :=
  { tpSize := 1, ppSize := 1, dpSize := 2,
    origParamShapes := [("w", [2])],
    dpRankOffsets := [("w", [(0, (0, 1)), (1, (1, 2))])] }

/-- Its two saved shards, all at tp rank 0. -/
def shardsC5 : List ((Nat × Nat) × ZeroCkpShard) :=
  [((0, 0), { state := [(0, [("exp_avg", [1]), ("exp_avg_sq", [5]), ("step", [9])])],
              gradAccum := [("w", [10])] }),
   ((0, 1), { state := [(0, [("exp_avg", [2]), ("exp_avg_sq", [6]), ("step", [9])])],
              gradAccum := [("w", [11])] })]

/-- Current side, tp grown to 2, this process at tp rank 1 (absent from the
checkpoint's shard keys). -/
def curC5a : CurrentCtx :=
  { tpSize := 2, tpRank := 1, dpSize := 1, dpRank := 0,
    curOffsets := [("w", [(0, (0, 2))])] }

/-- Current side, tp grown to 2, this process at tp rank 0. -/
def curC5b : CurrentCtx :=
  { tpSize := 2, tpRank := 0, dpSize := 1, dpRank := 0,
    curOffsets := [("w", [(0, (0, 2))])] }

/-- The state dict being rebuilt in the C5 scenario. -/
def sdC5 : OptimStateDict :=
  { state := [(0, [("exp_avg", [0]), ("exp_avg_sq", [0]), ("step", [9])])],
    names := [(0, "w")], gradAccum := [("w", [0])] }

/-- C5 counterexample: a combined tp + dp change under ZeRO does not fail
fast with the descriptive assert.  The rank whose tp rank is absent from the
checkpoint dies with a plain `KeyError` inside the merge loop (before the
tp-size assert is ever reached); the rank whose tp rank exists first merges
and re-slices the optimizer-state entries of the in-memory state dict — a dp
reshard attempt — and only then hits the descriptive assert. -/
theorem c5_not_fail_fast_not_descriptive :
    zeroDpReshard cfgC5 shardsC5 curC5a sdC5 = (some ZErr.keyError, sdC5)
    ∧ ZErr.keyError ≠ ZErr.assertTpSize
    ∧ (zeroDpReshard cfgC5 shardsC5 curC5b sdC5).1 = some ZErr.assertTpSize
    ∧ (zeroDpReshard cfgC5 shardsC5 curC5b sdC5).2.state ≠ sdC5.state
    ∧ (zeroDpReshard cfgC5 shardsC5 curC5b sdC5).2.gradAccum = sdC5.gradAccum := by
  decide

/-- C5 witness: the amended theorem at the concrete C5 input — the tp sizes
differ, so the reshard errors out and the gradient accumulator survives
untouched. -/
theorem c5_tp_change_stops_before_grad_accum_witness :
    (zeroDpReshard cfgC5 shardsC5 curC5b sdC5).1.isSome = true
    ∧ (zeroDpReshard cfgC5 shardsC5 curC5b sdC5).2.gradAccum = sdC5.gradAccum :=
  c5_tp_change_stops_before_grad_accum cfgC5 shardsC5 curC5b sdC5 (by decide)

theorem setSlice_getElem_outside (buf src : Tensor) (s e i : Nat)
    (hse : s ≤ e) (hel : e ≤ buf.length) (hlen : src.length = e - s)
    (hout : i < s ∨ e ≤ i) :
    (setSlice buf s e src)[i]? = buf[i]? := by
  unfold setSlice
  have hts : (buf.take s).length = s := by
    simp [List.length_take]
    omega
  cases hout with
  | inl hi =>
    rw [List.getElem?_append_left (by rw [List.length_append, hts]; omega),
        List.getElem?_append_left (by rw [hts]; omega)]
    simp [List.getElem?_take, hi]
  | inr hi =>
    rw [List.getElem?_append_right (by rw [List.length_append, hts]; omega)]
    rw [List.length_append, hts, hlen]
    rw [List.getElem?_drop]
    congr 1
    omega

theorem createMergedOptimStates_lookup (shapes : List (String × List Nat)) (p : String) :
    alookup (createMergedOptimStates shapes) p
      = (alookup shapes p).map (fun dims =>
          [("exp_avg", (List.replicate (numel dims) 0 : Tensor)),
           ("exp_avg_sq", (List.replicate (numel dims) 0 : Tensor))]) := by
  induction shapes with
  | nil => rfl
  | cons ps t ih =>
    have hcons : createMergedOptimStates (ps :: t)
        = (ps.1, [("exp_avg", (List.replicate (numel ps.2) 0 : Tensor)),
                  ("exp_avg_sq", (List.replicate (numel ps.2) 0 : Tensor))])
          :: createMergedOptimStates t := rfl
    rw [hcons, alookup_cons]
    by_cases h : ps.1 = p
    · simp [alookup_cons, h]
    · simp [alookup_cons, h, ih]

/-- Index `i` of parameter `pname` is zero in every state buffer of the
merged dict. -/
def mergedZeroAt (m : List (String × List (String × Tensor))) (pname : String)
    (i : Nat) : Prop :=
  ∀ bufs key buf, alookup m pname = some bufs → alookup bufs key = some buf →
    buf[i]? = some 0

theorem writeStateSlice_zeroAt (shards : List ((Nat × Nat) × ZeroCkpShard))
    (names : List (Nat × String)) (tpRank dpRank : Nat) (pname' key' : String)
    (off : Nat × Nat) (m m' : List (String × List (String × Tensor)))
    (pname : String) (i : Nat)
    (hout : pname' = pname → i < off.1 ∨ off.2 ≤ i)
    (hP : mergedZeroAt m pname i)
    (hw : writeStateSlice shards names tpRank dpRank pname' key' off m = .ok m') :
    mergedZeroAt m' pname i := by
  unfold writeStateSlice at hw
  cases hA : alookup shards (tpRank, dpRank) with
  | none => simp only [hA] at hw; exact Except.noConfusion hw
  | some shard =>
  simp only [hA] at hw
  cases hB : getKeyByValue names pname' with
  | none => simp only [hB] at hw; exact Except.noConfusion hw
  | some pIdx =>
  simp only [hB] at hw
  cases hC : alookup shard.state pIdx with
  | none => simp only [hC] at hw; exact Except.noConfusion hw
  | some entry =>
  simp only [hC] at hw
  cases hD : alookup entry key' with
  | none => simp only [hD] at hw; exact Except.noConfusion hw
  | some src =>
  simp only [hD] at hw
  cases hE : alookup m pname' with
  | none => simp only [hE] at hw; exact Except.noConfusion hw
  | some bufs =>
  simp only [hE] at hw
  cases hF : alookup bufs key' with
  | none => simp only [hF] at hw; exact Except.noConfusion hw
  | some buf =>
  simp only [hF] at hw
  by_cases hcond : off.1 ≤ off.2 ∧ off.2 ≤ buf.length ∧ src.length = off.2 - off.1
  · rw [if_pos hcond] at hw
    cases hw
    intro bufs2 key2 buf2 h1 h2
    by_cases hpn : pname' = pname
    · subst hpn
      rw [aset_lookup_same] at h1
      cases h1
      by_cases hk2 : key2 = key'
      · subst hk2
        rw [aset_lookup_same] at h2
        cases h2
        rw [setSlice_getElem_outside buf src off.1 off.2 i hcond.1 hcond.2.1 hcond.2.2
          (hout rfl)]
        exact hP bufs key2 buf hE hF
      · rw [aset_lookup_other _ _ _ _ hk2] at h2
        exact hP bufs key2 buf2 hE h2
    · have hpn' : pname ≠ pname' := fun hh => hpn hh.symm
      rw [aset_lookup_other _ _ _ _ hpn'] at h1
      exact hP bufs2 key2 buf2 h1 h2
  · rw [if_neg hcond] at hw
    exact Except.noConfusion hw

/-- C3 amended: the merge performs no coverage check and defines no
`IncompleteShardCoverageError`; the merged buffers are zero-initialized and
written only at the offset ranges recorded in the checkpoint's table, so any
element index of a parameter left uncovered by every recorded range silently
stays zero in every merged state buffer — and the load then proceeds to use
that buffer. -/
theorem c3_merge_uncovered_stays_zero (cfg : CkpOptimConfig)
    (shards : List ((Nat × Nat) × ZeroCkpShard)) (tpRank : Nat)
    (names : List (Nat × String)) (stateKeys : List String)
    (merged : List (String × List (String × Tensor)))
    (pname : String) (dims : List Nat) (i : Nat)
    (hok : mergeOptimStates cfg shards tpRank names stateKeys = .ok merged)
    (hsh : alookup cfg.origParamShapes pname = some dims)
    (hi : i < numel dims)
    (hunc : ∀ pr ∈ cfg.dpRankOffsets, pr.1 = pname →
      ∀ ro ∈ pr.2, i < ro.2.1 ∨ ro.2.2 ≤ i) :
    mergedZeroAt merged pname i := by
  unfold mergeOptimStates at hok
  refine foldlM_except_preserve (fun m => mergedZeroAt m pname i) _ cfg.dpRankOffsets _
    merged ?_ ?_ hok
  · intro m pr m' hpr hP hstep
    refine foldlM_except_preserve (fun m => mergedZeroAt m pname i) _ pr.2 m m' ?_ hP hstep
    intro m2 ro m3 hro hP2 hstep2
    refine foldlM_except_preserve (fun m => mergedZeroAt m pname i) _ stateKeys m2 m3 ?_
      hP2 hstep2
    intro m4 key m5 _ hP3 hstep3
    exact writeStateSlice_zeroAt shards names tpRank ro.1 pr.1 key ro.2 m4 m5 pname i
      (fun hpn => hunc pr hpr hpn ro hro) hP3 hstep3
  · intro bufs key buf h1 h2
    rw [createMergedOptimStates_lookup, hsh] at h1
    cases h1
    rw [alookup_cons] at h2
    by_cases hk1 : ("exp_avg", (List.replicate (numel dims) 0 : Tensor)).1 = key
    · rw [if_pos hk1] at h2
      cases h2
      simp [List.getElem?_replicate, hi]
    · rw [if_neg hk1] at h2
      rw [alookup_cons] at h2
      by_cases hk2 : ("exp_avg_sq", (List.replicate (numel dims) 0 : Tensor)).1 = key
      · rw [if_pos hk2] at h2
        cases h2
        simp [List.getElem?_replicate, hi]
      · rw [if_neg hk2] at h2
        cases h2

/-- C3 witness: the amended theorem at the concrete gapped checkpoint —
index 2 of `w` is uncovered, the merge succeeds, and the merged `exp_avg`
buffer holds 0 there. -/
theorem c3_merge_uncovered_stays_zero_witness :
    mergeOptimStates cfgGap shardsGap 0 [(0, "w")] ["exp_avg", "exp_avg_sq"]
        = .ok [("w", [("exp_avg", [1, 2, 0, 0]), ("exp_avg_sq", [5, 6, 0, 0])])]
    ∧ (2 : Nat) < numel [4]
    ∧ (∀ pr ∈ cfgGap.dpRankOffsets, pr.1 = "w" → ∀ ro ∈ pr.2, 2 < ro.2.1 ∨ ro.2.2 ≤ 2)
    ∧ ([1, 2, 0, 0] : Tensor)[2]? = some 0 :=
  ⟨rfl, by decide, by decide,
   c3_merge_uncovered_stays_zero cfgGap shardsGap 0 [(0, "w")] ["exp_avg", "exp_avg_sq"]
     [("w", [("exp_avg", [1, 2, 0, 0]), ("exp_avg_sq", [5, 6, 0, 0])])] "w" [4] 2
     rfl rfl (by decide) (by decide)
     [("exp_avg", [1, 2, 0, 0]), ("exp_avg_sq", [5, 6, 0, 0])] "exp_avg" [1, 2, 0, 0]
     rfl rfl⟩

theorem alookup_map_val {α β γ : Type} [DecidableEq α] (l : List (α × β)) (h : β → γ)
    (k : α) :
    alookup (l.map (fun kv => (kv.1, h kv.2))) k = (alookup l k).map h := by
  induction l with
  | nil => rfl
  | cons kv t ih =>
    by_cases hk : kv.1 = k
    · simp [List.map_cons, alookup_cons, hk]
    · simp [List.map_cons, alookup_cons, hk, ih]

/-!
## `state_dict_to_device` (lines 160-177)

Moves every optimizer state tensor and every gradient-accumulator tensor of a
state dict to a target device.  Asserts before moving that
`state_dict["state"][0]["exp_avg"]` lives on CPU, and after moving that it
lives on CUDA; `torch.cuda.empty_cache()` has no observable effect here and
is not modelled.  An `AssertionError` raised by the second assert leaves the
(already moved) dict behind, which the explicit state passing makes visible.
-/

/-- A device, identified by its `.type` string (`"cpu"`, `"cuda"`, ...). -/
structure Device : Type where
  devType : String
deriving DecidableEq

/-- A device-carrying tensor (payload opaque). -/
structure DTensor : Type where
  payload : Int
  dev : Device
deriving DecidableEq

/-- Python `tensor.to(device)`. -/
def tensorTo (t : DTensor) (d : Device) : DTensor := { t with dev := d }

/-- The state dict shape consumed by `state_dict_to_device`. -/
structure DStateDict : Type where
  state : List (Nat × List (String × DTensor))
  gradAccum : List (String × DTensor)
deriving DecidableEq

/-- The two move loops (lines 167-172): every state tensor of every
parameter, then every gradient-accumulator tensor, is replaced by its copy on
`device`.  (The source iterates `sorted(state.items())`; the order only
affects the sequence of moves, not the result.) -/
def moveAll (sd : DStateDict) (device : Device) : DStateDict :=
  { state := sd.state.map (fun pe => (pe.1, pe.2.map (fun ne => (ne.1, tensorTo ne.2 device)))),
    gradAccum := sd.gradAccum.map (fun ne => (ne.1, tensorTo ne.2 device)) }

/-- Function `state_dict_to_device` (lines 160-177). -/
def stateDictToDevice (sd : DStateDict) (device : Device) :
    Except String Unit × DStateDict :=
  match alookup sd.state 0 with
  | none => (.error "KeyError", sd)
  | some st0 =>
    match alookup st0 "exp_avg" with
    | none => (.error "KeyError", sd)
    | some t =>
      if t.dev.devType = "cpu" then
        let moved := moveAll sd device
        match alookup moved.state 0 with
        | none => (.error "KeyError", moved)
        | some st0' =>
          match alookup st0' "exp_avg" with
          | none => (.error "KeyError", moved)
          | some t' =>
            if t'.dev.devType = "cuda" then (.ok (), moved)
            else (.error "AssertionError", moved)
      else (.error "AssertionError", sd)

theorem moveAll_lookup (sd : DStateDict) (device : Device) (st0 : List (String × DTensor))
    (t : DTensor) (h0 : alookup sd.state 0 = some st0)
    (h1 : alookup st0 "exp_avg" = some t) :
    alookup (moveAll sd device).state 0
        = some (st0.map (fun ne => (ne.1, tensorTo ne.2 device)))
    ∧ alookup (st0.map (fun ne => (ne.1, tensorTo ne.2 device))) "exp_avg"
        = some (tensorTo t device) := by
  constructor
  · show alookup (sd.state.map
        (fun pe => (pe.1, pe.2.map (fun ne => (ne.1, tensorTo ne.2 device))))) 0 = _
    rw [alookup_map_val sd.state (fun v => v.map (fun ne => (ne.1, tensorTo ne.2 device))) 0,
      h0]
    rfl
  · rw [alookup_map_val st0 (fun v => tensorTo v device) "exp_avg", h1]
    rfl

/-- C10: `state_dict_to_device` succeeds iff the probed `exp_avg` tensor
starts on CPU and the target device is CUDA; whenever the initial CPU assert
passes, every state tensor and every gradient-accumulator tensor ends up on
the target device — including when the target is not CUDA, in which case the
final assert raises an `AssertionError` *after* the move. -/
theorem c10_state_dict_to_device (sd : DStateDict) (device : Device)
    (st0 : List (String × DTensor)) (t : DTensor)
    (h0 : alookup sd.state 0 = some st0)
    (h1 : alookup st0 "exp_avg" = some t) :
    (((stateDictToDevice sd device).1 = .ok ()) ↔
        (t.dev.devType = "cpu" ∧ device.devType = "cuda"))
    ∧ (t.dev.devType = "cpu" →
        ((∀ pe ∈ (stateDictToDevice sd device).2.state, ∀ ne ∈ pe.2, ne.2.dev = device)
         ∧ (∀ ne ∈ (stateDictToDevice sd device).2.gradAccum, ne.2.dev = device)))
    ∧ (t.dev.devType = "cpu" → device.devType ≠ "cuda" →
        (stateDictToDevice sd device).1 = .error "AssertionError") := by
  have hm := moveAll_lookup sd device st0 t h0 h1
  by_cases hcpu : t.dev.devType = "cpu"
  · have hred : stateDictToDevice sd device =
        (if device.devType = "cuda" then (.ok (), moveAll sd device)
         else (.error "AssertionError", moveAll sd device)) := by
      unfold stateDictToDevice
      simp only [h0, h1, hcpu, if_true]
      simp only [hm.1, hm.2]
      rfl
    have hmoved : (∀ pe ∈ (moveAll sd device).state, ∀ ne ∈ pe.2, ne.2.dev = device)
        ∧ (∀ ne ∈ (moveAll sd device).gradAccum, ne.2.dev = device) := by
      constructor
      · intro pe hpe ne hne
        rcases List.mem_map.mp hpe with ⟨pe0, _, rfl⟩
        rcases List.mem_map.mp hne with ⟨ne0, _, rfl⟩
        rfl
      · intro ne hne
        rcases List.mem_map.mp hne with ⟨ne0, _, rfl⟩
        rfl
    by_cases hcuda : device.devType = "cuda"
    · rw [hred, if_pos hcuda]
      refine ⟨by simp [hcpu, hcuda], fun _ => hmoved, fun _ hc => absurd hcuda hc⟩
    · rw [hred, if_neg hcuda]
      refine ⟨by simp [hcuda], fun _ => hmoved, fun _ _ => rfl⟩
  · have hred : stateDictToDevice sd device = (.error "AssertionError", sd) := by
      unfold stateDictToDevice
      simp [h0, h1, hcpu]
    rw [hred]
    refine ⟨by simp [hcpu], fun hc => absurd hc hcpu, fun hc => absurd hc hcpu⟩

/-- Sample CPU-resident state dict for the C10 witness. -/
def dsdSample : DStateDict :=
  { state := [(0, [("exp_avg", { payload := 1, dev := { devType := "cpu" } }),
                   ("exp_avg_sq", { payload := 2, dev := { devType := "cpu" } })])],
    gradAccum := [("w", { payload := 3, dev := { devType := "cpu" } })] }

/-- C10 witness: moving the sample dict to CUDA succeeds, moving it to CPU
raises the assertion, both by `c10_state_dict_to_device`. -/
theorem c10_state_dict_to_device_witness :
    (stateDictToDevice dsdSample { devType := "cuda" }).1 = .ok ()
    ∧ (stateDictToDevice dsdSample { devType := "cpu" }).1 = .error "AssertionError" :=
  ⟨(c10_state_dict_to_device dsdSample { devType := "cuda" } _ _ rfl rfl).1.mpr
      ⟨rfl, rfl⟩,
   (c10_state_dict_to_device dsdSample { devType := "cpu" } _ _ rfl rfl).2.2 rfl
      (by decide)⟩
